import Mathlib

/-!
Verification of the Agiloft API client's authentication and session engine
(`agiloft/client.py`). The client's mutable session fields are embedded as a
`TokenState` record, time as integer seconds, and each network-performing
method as a pure function that takes the response it would receive as an
argument and returns the new state, the list of network calls it issued, and
an optional error. Python truthiness on optional strings (`if self.x:`)
is embedded as `pyTruthy`.
-/

namespace Agiloft

/-- Static client configuration, read once at construction
(`AgiloftClient.__init__`). Optional fields are those whose `config.get`
default is `None`. -/
structure Config where
  base_url : String
  kb : String
  language : String
  auth_method : String
  username : Option String
  password : Option String
  oauth2_client_id : Option String
  oauth2_client_secret : Option String
  oauth2_token_endpoint : Option String
  oauth2_authorization_endpoint : Option String
  oauth2_redirect_uri : String
  oauth2_scope : String
deriving DecidableEq, Repr

/-- The client's mutable session fields: `access_token`, `refresh_token`,
`token_expires_at` (absolute time in seconds) and `api_access_point`. -/
structure TokenState where
  access_token : Option String
  refresh_token : Option String
  token_expires_at : Option Int
  api_access_point : Option String
deriving DecidableEq, Repr

/-- Python truthiness of an optional string: `None` and `""` are falsy. -/
def pyTruthy : Option String → Bool
  | none => false
  | some t => t ≠ ""

/-- A network side effect issued by the client. -/
inductive NetCall
  | loginPost (url : String)
  | tokenPost (url : String) (grantType : String)
  | apiRequest (method : String) (url : String) (bearer : String)
  | browserOpen (endpoint : String) (params : List (String × String))
  | listenerTeardown
deriving DecidableEq, Repr

/-- `AgiloftAuthError`: authentication-layer failure. -/
structure AgiloftAuthError where
  msg : String
deriving DecidableEq, Repr

/-- `AgiloftAPIError`: API-layer failure carrying status and raw body. -/
structure AgiloftAPIError where
  msg : String
  status_code : Option Nat
  response_text : Option String
deriving DecidableEq, Repr

/-- Either kind of failure `_make_request` can surface. -/
inductive ClientError
  | auth (e : AgiloftAuthError)
  | api (e : AgiloftAPIError)
deriving DecidableEq, Repr

/-- A token-endpoint (or login-endpoint) JSON response, as the Python code
reads it: HTTP status, whether the content type was JSON, and the fields
`data.get` would return. -/
structure TokenResponse where
  status : Nat
  contentTypeJson : Bool
  access_token : Option String
  expires_in : Option Int
  refresh_token : Option String
deriving DecidableEq, Repr

/-- The legacy `/login` response envelope. -/
structure LegacyResponse where
  status : Nat
  success : Bool
  result_access_token : Option String
  result_refresh_token : Option String
  result_expires_in : Option Int
deriving DecidableEq, Repr

/-- An HTTP response to a resource API request. -/
structure ApiResponse where
  status : Nat
  text : String
deriving DecidableEq, Repr

/-- The responses the environment would give to each kind of
authentication network call. -/
structure NetEnv where
  refreshResp : TokenResponse
  legacyResp : LegacyResponse
  ccResp : TokenResponse
deriving DecidableEq, Repr

/-- Result of one modeled client operation: the state it leaves behind, the
network calls it issued in order, and the error it raised, if any. -/
abbrev StepOut := TokenState × List NetCall × Option AgiloftAuthError

/-- The first piece of `s` up to (and excluding) the first occurrence of
`marker`, or all of `s` when the marker is absent: Python
`s.split(marker)[0]`. -/
def beforeMarker (s marker : String) : String :=
  (s.splitOn marker).headD s

/-- Token endpoint used by `_refresh_access_token` (client.py lines 427-433):
the configured endpoint if truthy, else the learned `api_access_point` with
`/ewws/otoken` appended, else the base URL split at `/ewws/alrest` with
`/ewws/otoken` appended. -/
def refreshTokenUrl (cfg : Config) (s : TokenState) : String :=
  if pyTruthy cfg.oauth2_token_endpoint then
    cfg.oauth2_token_endpoint.getD ""
  else if pyTruthy s.api_access_point then
    s.api_access_point.getD "" ++ "/ewws/otoken"
  else
    beforeMarker cfg.base_url "/ewws/alrest" ++ "/ewws/otoken"

/-- `_refresh_access_token` (client.py lines 412-497): fails without a truthy
refresh token; posts a `refresh_token` grant; on a 200 JSON response carrying
a truthy access token, stores the new access token and expiry and replaces
the refresh token only when the response carries a truthy one. All failure
paths leave the state unchanged. -/
def refreshAccessToken (cfg : Config) (now : Int) (s : TokenState)
    (resp : TokenResponse) : StepOut :=
  if pyTruthy s.refresh_token = false then
    (s, [], some ⟨"No refresh token available for token refresh"⟩)
  else
    let url := refreshTokenUrl cfg s
    let calls := [NetCall.tokenPost url "refresh_token"]
    if resp.status ≠ 200 then
      (s, calls, some ⟨"Token refresh failed: " ++ toString resp.status⟩)
    else if resp.contentTypeJson = false then
      (s, calls, some ⟨"Expected JSON response but got another content type"⟩)
    else if pyTruthy resp.access_token = false then
      (s, calls, some ⟨"No access token in refresh response"⟩)
    else
      ({ s with
          access_token := resp.access_token,
          token_expires_at := some (now + resp.expires_in.getD 900),
          refresh_token :=
            if pyTruthy resp.refresh_token then resp.refresh_token
            else s.refresh_token },
        calls, none)

/-- `_authenticate_legacy` (client.py lines 120-161): posts credentials to
`{base_url}/login`; on a 200 response with `success`, stores the result's
tokens (no truthiness check on them) and the expiry. -/
def authenticateLegacy (cfg : Config) (now : Int) (s : TokenState)
    (resp : LegacyResponse) : StepOut :=
  let calls := [NetCall.loginPost (cfg.base_url ++ "/login")]
  if resp.status ≠ 200 then
    (s, calls, some ⟨"Authentication failed: " ++ toString resp.status⟩)
  else if resp.success = false then
    (s, calls, some ⟨"Authentication failed: provider reported failure"⟩)
  else
    ({ s with
        access_token := resp.result_access_token,
        refresh_token := resp.result_refresh_token,
        token_expires_at := some (now + resp.result_expires_in.getD 900) },
      calls, none)

/-- `_authenticate_oauth2_client_credentials` (client.py lines 163-216):
posts a `client_credentials` grant to the configured token endpoint. The
access token is assigned before it is checked for truthiness, so the
missing-token failure path mutates `access_token`. -/
def authenticateClientCredentials (cfg : Config) (now : Int) (s : TokenState)
    (resp : TokenResponse) : StepOut :=
  let calls := [NetCall.tokenPost (cfg.oauth2_token_endpoint.getD "")
    "client_credentials"]
  if resp.status ≠ 200 then
    (s, calls, some ⟨"OAuth2 authentication failed: " ++ toString resp.status⟩)
  else if resp.contentTypeJson = false then
    (s, calls, some ⟨"OAuth2 authentication failed: response not JSON"⟩)
  else
    let s1 := { s with access_token := resp.access_token }
    if pyTruthy resp.access_token = false then
      (s1, calls, some ⟨"No access token in OAuth2 response"⟩)
    else
      ({ s1 with
          token_expires_at := some (now + resp.expires_in.getD 900),
          refresh_token := resp.refresh_token },
        calls, none)

/-- The error `_authenticate` raises in authorization-code mode when no
refresh token can be used (client.py lines 113-116). -/
def browserAuthRequiredMsg : String :=
  "OAuth2 Authorization Code flow requires manual authentication. " ++
  "Call authenticate_with_browser() before using the client."

/-- `_authenticate` (client.py lines 98-118): dispatch on `auth_method`. In
authorization-code mode, tries the refresh token if one is truthy; on
refresh failure clears it; then fails telling the caller to run the
interactive browser flow, with no network call of its own. -/
def authenticate (cfg : Config) (now : Int) (s : TokenState)
    (env : NetEnv) : StepOut :=
  if cfg.auth_method = "oauth2_client_credentials" then
    authenticateClientCredentials cfg now s env.ccResp
  else if cfg.auth_method = "oauth2_authorization_code" then
    if pyTruthy s.refresh_token then
      match refreshAccessToken cfg now s env.refreshResp with
      | (s', calls, none) => (s', calls, none)
      | (s', calls, some _) =>
        ({ s' with refresh_token := none }, calls,
          some ⟨browserAuthRequiredMsg⟩)
    else
      (s, [], some ⟨browserAuthRequiredMsg⟩)
  else
    authenticateLegacy cfg now s env.legacyResp

/-- The renewal condition of `ensure_authenticated` (client.py lines 83-85):
no access token recorded, no expiry recorded, or
`now >= token_expires_at - 1 minute`. -/
def needsAuth (now : Int) (s : TokenState) : Bool :=
  match s.access_token, s.token_expires_at with
  | none, _ => true
  | some _, none => true
  | some _, some e => decide (now ≥ e - 60)

/-- `ensure_authenticated` (client.py lines 77-96): under the auth lock, if
the renewal condition holds, try a refresh first when a truthy refresh token
is held; on refresh failure clear the refresh token and fall back to
`_authenticate`. -/
def ensureAuthenticated (cfg : Config) (now : Int) (s : TokenState)
    (env : NetEnv) : StepOut :=
  if needsAuth now s then
    if pyTruthy s.refresh_token then
      match refreshAccessToken cfg now s env.refreshResp with
      | (s', calls, none) => (s', calls, none)
      | (s', calls, some _) =>
        match authenticate cfg now { s' with refresh_token := none } env with
        | (s'', calls2, e2) => (s'', calls ++ calls2, e2)
    else
      authenticate cfg now s env
  else
    (s, [], none)

/-- The 401 handler of `_make_request` (client.py lines 544-556): under the
auth lock, if the live access token differs from the snapshot taken before
the request, do nothing (a concurrent caller already refreshed); else try a
refresh when a truthy refresh token is held, clearing it and falling back to
`_authenticate` on failure; else `_authenticate` directly. -/
def handle401 (cfg : Config) (now : Int) (s : TokenState)
    (snapshot : Option String) (env : NetEnv) : StepOut :=
  if s.access_token ≠ snapshot then
    (s, [], none)
  else if pyTruthy s.refresh_token then
    match refreshAccessToken cfg now s env.refreshResp with
    | (s', calls, none) => (s', calls, none)
    | (s', calls, some _) =>
      match authenticate cfg now { s' with refresh_token := none } env with
      | (s'', calls2, e2) => (s'', calls ++ calls2, e2)
  else
    authenticate cfg now s env

/-- `_get_auth_headers` (client.py lines 499-508), reduced to the bearer
credential it attaches: fails when no truthy access token is held. -/
def getAuthHeaders (s : TokenState) : Except AgiloftAuthError String :=
  if pyTruthy s.access_token then .ok (s.access_token.getD "")
  else .error ⟨"No access token available"⟩

/-- The statuses `_make_request` accepts as success (client.py lines 563,
575). -/
def successStatuses : List Nat := [200, 201, 202, 204]

/-- What `_make_request` hands back to its caller on success: an empty
result for a 204 response, otherwise the JSON parse of the body text. -/
inductive ReqResult
  | empty
  | parsed (text : String)
deriving DecidableEq, Repr

/-- Resource URL built by `_make_request` (client.py line 515): base URL,
slash, endpoint with leading slashes stripped. -/
def requestUrl (cfg : Config) (endpoint : String) : String :=
  cfg.base_url ++ "/" ++ endpoint.dropWhile (· = '/')

/-- `_make_request` (client.py lines 510-591): ensure authentication, attach
the bearer credential, snapshot the token, issue the request. On a 401,
run the 401 handler (`interfere` stands for mutations by other coroutines
between the request and the handler's lock acquisition) and retry exactly
once with fresh credentials; any non-success status on the retry, or a
non-401 non-success status on the first response, is a terminal
`AgiloftAPIError` carrying the status and raw body; a 204 yields the empty
result, other success statuses the parsed body. -/
def makeRequest (cfg : Config) (now : Int) (s : TokenState) (env : NetEnv)
    (interfere : TokenState → TokenState) (method endpoint : String)
    (resp1 resp2 : ApiResponse) :
    TokenState × List NetCall × Except ClientError ReqResult :=
  match ensureAuthenticated cfg now s env with
  | (s1, c1, some err) => (s1, c1, .error (.auth err))
  | (s1, c1, none) =>
    match getAuthHeaders s1 with
    | .error err => (s1, c1, .error (.auth err))
    | .ok bearer =>
      let url := requestUrl cfg endpoint
      let c2 := c1 ++ [NetCall.apiRequest method url bearer]
      if resp1.status = 401 then
        match handle401 cfg now (interfere s1) s1.access_token env with
        | (s3, c3, some err) => (s3, c2 ++ c3, .error (.auth err))
        | (s3, c3, none) =>
          match getAuthHeaders s3 with
          | .error err => (s3, c2 ++ c3, .error (.auth err))
          | .ok bearer2 =>
            let c5 := c2 ++ c3 ++ [NetCall.apiRequest method url bearer2]
            if resp2.status ∈ successStatuses then
              if resp2.status = 204 then (s3, c5, .ok .empty)
              else (s3, c5, .ok (.parsed resp2.text))
            else
              (s3, c5, .error (.api
                ⟨"API request failed after re-auth: " ++
                    toString resp2.status ++ " - " ++ resp2.text,
                  some resp2.status, some resp2.text⟩))
      else if resp1.status ∈ successStatuses then
        if resp1.status = 204 then (s1, c2, .ok .empty)
        else (s1, c2, .ok (.parsed resp1.text))
      else
        (s1, c2, .error (.api
          ⟨"API request failed: " ++ toString resp1.status ++ " - " ++
              resp1.text,
            some resp1.status, some resp1.text⟩))

/-- `logout` (client.py lines 704-716): only when a truthy access token is
held, POST `/logout` (ignoring any failure) and then clear all four session
fields; otherwise do nothing at all. -/
def logout (cfg : Config) (now : Int) (s : TokenState) (env : NetEnv)
    (resp1 resp2 : ApiResponse) : TokenState × List NetCall :=
  if pyTruthy s.access_token then
    match makeRequest cfg now s env id "POST" "/logout" resp1 resp2 with
    | (s', calls, _) =>
      ({ s' with
          access_token := none,
          refresh_token := none,
          token_expires_at := none,
          api_access_point := none }, calls)
  else
    (s, [])

/-- The query parameters of the authorization URL, in the order
`authenticate_with_browser` builds them (client.py lines 240-249); `scope`
is appended only when non-empty. -/
def authParams (cfg : Config) (state : String) : List (String × String) :=
  [("client_id", cfg.oauth2_client_id.getD ""),
    ("redirect_uri", cfg.oauth2_redirect_uri),
    ("response_type", "code"),
    ("state", state)] ++
    (if cfg.oauth2_scope ≠ "" then [("scope", cfg.oauth2_scope)] else [])

/-- What the local callback listener captured from the redirect request
(client.py lines 262-291): the `code`, `state`, `api_access_point`
(defaulted to the empty string) and `error` query parameters. -/
structure CallbackResult where
  code : Option String
  state : Option String
  api_access_point : String
  error : Option String
deriving DecidableEq, Repr

/-- `_exchange_code_for_token` (client.py lines 335-410): learn the
`api_access_point` when truthy, choose the token endpoint from it (else
derive it from the base URL), post an `authorization_code` grant, and on a
200 JSON response store the tokens; the access token is assigned before its
truthiness check. -/
def exchangeCodeForToken (cfg : Config) (now : Int) (s : TokenState)
    (code : String) (apiAccessPoint : String) (resp : TokenResponse) :
    StepOut :=
  let s0 := if apiAccessPoint ≠ "" then
      { s with api_access_point := some apiAccessPoint }
    else s
  let url := if apiAccessPoint ≠ "" then apiAccessPoint ++ "/ewws/otoken"
    else beforeMarker cfg.base_url "/ewws/alrest" ++ "/ewws/otoken"
  let calls := [NetCall.tokenPost url "authorization_code"]
  if resp.status ≠ 200 then
    (s0, calls, some ⟨"Token exchange failed: " ++ toString resp.status⟩)
  else if resp.contentTypeJson = false then
    (s0, calls, some ⟨"Expected JSON response but got another content type"⟩)
  else
    let s1 := { s0 with access_token := resp.access_token }
    if pyTruthy resp.access_token = false then
      (s1, calls, some ⟨"No access token in response"⟩)
    else
      ({ s1 with
          token_expires_at := some (now + resp.expires_in.getD 900),
          refresh_token := resp.refresh_token },
        calls, none)

/-- `authenticate_with_browser` (client.py lines 218-333): open the browser
on the authorization URL built around the generated `nonce`; wait for the
callback (`cb = none` means no callback arrived before the 300-second
timeout); tear the listener down unconditionally; then fail on a missing
code, fail on a state mismatch, and only otherwise exchange the code. -/
def authenticateWithBrowser (cfg : Config) (now : Int) (s : TokenState)
    (nonce : String) (cb : Option CallbackResult) (exResp : TokenResponse) :
    StepOut :=
  let opened := NetCall.browserOpen (cfg.oauth2_authorization_endpoint.getD "")
    (authParams cfg nonce)
  let base := [opened, NetCall.listenerTeardown]
  match cb with
  | none => (s, base, some ⟨"Authorization timeout - no code received"⟩)
  | some r =>
    match r.code with
    | none => (s, base, some ⟨"Authorization timeout - no code received"⟩)
    | some code =>
      if r.state ≠ some nonce then
        (s, base, some ⟨"State parameter mismatch - possible CSRF attack"⟩)
      else
        match exchangeCodeForToken cfg now s code r.api_access_point exResp with
        | (s', calls, e) => (s', base ++ calls, e)

/-! ### Spec-side predicates, trace classifiers and concrete fixtures -/

/-- The spec's renewal condition, in its own words: a token needs renewal
when none is held, no expiry is recorded, or strictly less than 60 seconds
of validity remain. Stated for comparison with the source-side
`needsAuth`. -/
def specNeedsRenewalLt (now : Int) (s : TokenState) : Bool :=
  match s.access_token, s.token_expires_at with
  | none, _ => true
  | some _, none => true
  | some _, some e => decide (e - now < 60)

/-- The explicitly configured token endpoint, when set to a non-empty
value. -/
def configuredEndpoint (cfg : Config) : Option String :=
  cfg.oauth2_token_endpoint.filter (fun t => t ≠ "")

/-- The token endpoint learned during the authorization-code exchange, when
a non-empty access point was recorded. -/
def learnedEndpoint (s : TokenState) : Option String :=
  s.api_access_point.filter (fun t => t ≠ "")

/-- The token endpoint derived from the base API URL: the URL truncated at
the `/ewws/alrest` path marker, with `/ewws/otoken` appended. -/
def derivedEndpoint (cfg : Config) : String :=
  beforeMarker cfg.base_url "/ewws/alrest" ++ "/ewws/otoken"

/-- The spec's priority order for the refresh token endpoint: the
explicitly configured endpoint; otherwise the learned access point with
`/ewws/otoken` appended; otherwise the endpoint derived from the base API
URL. Stated for comparison with the source-side `refreshTokenUrl`. -/
def specTokenEndpoint (cfg : Config) (s : TokenState) : String :=
  match configuredEndpoint cfg with
  | some te => te
  | none =>
    match learnedEndpoint s with
    | some ap => ap ++ "/ewws/otoken"
    | none => derivedEndpoint cfg

/-- Recognizes a resource API request in a network trace. -/
def isApiCall : NetCall → Bool
  | .apiRequest _ _ _ => true
  | _ => false

/-- Recognizes a `refresh_token`-grant post in a network trace. -/
def isRefreshGrant : NetCall → Bool
  | .tokenPost _ g => g = "refresh_token"
  | _ => false

/-- Recognizes an `authorization_code`-grant post (the token-exchange step)
in a network trace. -/
def isTokenExchangeCall : NetCall → Bool
  | .tokenPost _ g => g = "authorization_code"
  | _ => false

/-- A legacy-mode configuration used to evaluate the theorems on concrete
inputs. -/
def cfgLegacy : Config :=
  { base_url := "https://example.com/ewws/alrest/Demo"
    kb := "Demo"
    language := "en"
    auth_method := "legacy"
    username := some "user"
    password := some "pw"
    oauth2_client_id := none
    oauth2_client_secret := none
    oauth2_token_endpoint := none
    oauth2_authorization_endpoint := none
    oauth2_redirect_uri := "http://localhost:8080/callback"
    oauth2_scope := "" }

/-- An authorization-code-mode configuration. -/
def cfgAuthCode : Config :=
  { cfgLegacy with
      auth_method := "oauth2_authorization_code"
      oauth2_client_id := some "cid"
      oauth2_authorization_endpoint := some "https://example.com/ewws/oauth" }

/-- An environment in which every authentication call succeeds. -/
def envNice : NetEnv :=
  { refreshResp :=
      { status := 200, contentTypeJson := true, access_token := some "A2",
        expires_in := some 900, refresh_token := none }
    legacyResp :=
      { status := 200, success := true, result_access_token := some "A1",
        result_refresh_token := some "R1", result_expires_in := some 900 }
    ccResp :=
      { status := 200, contentTypeJson := true, access_token := some "A1",
        expires_in := some 900, refresh_token := none } }

/-- An environment in which the refresh call is rejected but a full
authentication still succeeds. -/
def envRefreshRejected : NetEnv :=
  { envNice with
      refreshResp :=
        { status := 401, contentTypeJson := true, access_token := none,
          expires_in := none, refresh_token := none } }

/-- A state holding a token valid well past the safety margin at time 0. -/
def sValid : TokenState := ⟨some "A1", some "R1", some 900, none⟩

/-- A state holding an expired token and a refresh token at time 0. -/
def sExpired : TokenState := ⟨some "A0", some "R1", some 10, none⟩

/-- A state with no access token but a leftover refresh token, expiry and
access point. -/
def sNoAccess : TokenState :=
  ⟨none, some "R1", some 5, some "https://ap.example.com"⟩

/-- A successful API response. -/
def respOk200 : ApiResponse := { status := 200, text := "ok-body" }

/-- A server-error API response. -/
def respErr500 : ApiResponse := { status := 500, text := "server error" }

/-- An unauthorized API response. -/
def resp401 : ApiResponse := { status := 401, text := "unauthorized" }

/-! ### General lemmas about the embedded operations -/

theorem ensureAuthenticated_noop (cfg : Config) (now : Int) (s : TokenState)
    (env : NetEnv) (h : needsAuth now s = false) :
    ensureAuthenticated cfg now s env = (s, [], none) := by
  simp [ensureAuthenticated, h]

theorem handle401_stale_skip (cfg : Config) (now : Int) (s : TokenState)
    (snapshot : Option String) (env : NetEnv)
    (h : s.access_token ≠ snapshot) :
    handle401 cfg now s snapshot env = (s, [], none) := by
  simp [handle401, h]

theorem refreshAccessToken_calls (cfg : Config) (now : Int) (s : TokenState)
    (resp : TokenResponse) (h : pyTruthy s.refresh_token = true) :
    (refreshAccessToken cfg now s resp).2.1 =
      [NetCall.tokenPost (refreshTokenUrl cfg s) "refresh_token"] := by
  unfold refreshAccessToken
  simp only [h, Bool.true_eq_false, if_false]
  split
  · rfl
  · split
    · rfl
    · split <;> rfl

theorem refreshAccessToken_cases (cfg : Config) (now : Int) (s : TokenState)
    (resp : TokenResponse) :
    (refreshAccessToken cfg now s resp).1 = s ∨
    (refreshAccessToken cfg now s resp).2.2 = none := by
  unfold refreshAccessToken
  split
  · left; rfl
  · split
    · left; rfl
    · split
      · left; rfl
      · split
        · left; rfl
        · right; rfl

theorem authenticate_attempt (cfg : Config) (now : Int) (s : TokenState)
    (env : NetEnv) :
    (authenticate cfg now s env).2.1 ≠ [] ∨
    ((authenticate cfg now s env).2.2).isSome = true := by
  unfold authenticate
  split
  · left
    unfold authenticateClientCredentials
    split
    · simp
    · split
      · simp
      · split <;> simp
  · split
    · split
      · next hT =>
        split
        · next s' calls heq =>
          left
          have := refreshAccessToken_calls cfg now s env.refreshResp hT
          rw [heq] at this
          simp only at this
          simp [this]
        · next s' calls e heq => right; rfl
      · right; rfl
    · left
      unfold authenticateLegacy
      split
      · simp
      · split <;> simp

theorem authenticate_no_refreshGrant (cfg : Config) (now : Int)
    (s : TokenState) (env : NetEnv) (h : pyTruthy s.refresh_token = false) :
    ((authenticate cfg now s env).2.1).filter isRefreshGrant = [] := by
  unfold authenticate
  split
  · unfold authenticateClientCredentials
    split
    · simp [isRefreshGrant]
    · split
      · simp [isRefreshGrant]
      · split <;> simp [isRefreshGrant]
  · split
    · simp [h]
    · unfold authenticateLegacy
      split
      · simp [isRefreshGrant]
      · split <;> simp [isRefreshGrant]

/-! ### Claim C2 -/

/-- C2, as stated, is refuted at the 60-second boundary: with exactly 60
seconds of validity remaining (`expires_at` = now + 60 at now = 0), the
code's renewal condition fires, but strictly less than 60 seconds do not
remain, so the spec-worded condition does not. -/
theorem claim_C2_counterexample :
    needsAuth 0 ⟨some "A", some "R", some 60, none⟩ = true ∧
    specNeedsRenewalLt 0 ⟨some "A", some "R", some 60, none⟩ = false := by
  constructor <;> rfl

/-- C2 (amended): `ensure_authenticated` triggers renewal exactly when 60
seconds or less of validity remain at the time of the check (a token with
`expires_at` = now+59s triggers renewal and one with `expires_at` = now+61s
does not), and always when no access token or no expiry is recorded; when
the condition is false it performs no network call and leaves the state
unchanged, and when it is true it attempts acquisition. -/
theorem claim_C2_renewal_margin :
    (∀ (now : Int) (s : TokenState), needsAuth now s = true ↔
      (s.access_token = none ∨ s.token_expires_at = none ∨
        ∃ e, s.token_expires_at = some e ∧ e - now ≤ 60)) ∧
    (∀ now : Int,
      needsAuth now ⟨some "A", some "R", some (now + 59), none⟩ = true) ∧
    (∀ now : Int,
      needsAuth now ⟨some "A", some "R", some (now + 61), none⟩ = false) ∧
    (∀ (cfg : Config) (env : NetEnv) (now : Int) (s : TokenState),
      needsAuth now s = false →
        ensureAuthenticated cfg now s env = (s, [], none)) ∧
    (∀ (cfg : Config) (env : NetEnv) (now : Int) (s : TokenState),
      needsAuth now s = true →
        (ensureAuthenticated cfg now s env).2.1 ≠ [] ∨
        ((ensureAuthenticated cfg now s env).2.2).isSome = true) := by
  refine ⟨?_, ?_, ?_, ?_, ?_⟩
  · intro now s
    rcases s with ⟨a, r, e, ap⟩
    cases a <;> cases e <;> simp [needsAuth] <;> omega
  · intro now; simp [needsAuth]
  · intro now; simp [needsAuth]
  · intro cfg env now s h
    exact ensureAuthenticated_noop cfg now s env h
  · intro cfg env now s h
    unfold ensureAuthenticated
    simp only [h, if_true]
    split
    · next hT =>
      split
      · next s' calls heq =>
        left
        have := refreshAccessToken_calls cfg now s env.refreshResp hT
        rw [heq] at this
        simp only at this
        simp [this]
      · next s' calls e heq =>
        left
        have := refreshAccessToken_calls cfg now s env.refreshResp hT
        rw [heq] at this
        simp only at this
        simp [this]
    · exact authenticate_attempt cfg now s env

/-- Witness for C2 (amended): a concrete valid token performs no renewal,
and a concrete boundary token does attempt acquisition. -/
theorem claim_C2_witness :
    ensureAuthenticated cfgLegacy 0 sValid envNice = (sValid, [], none) ∧
    ((ensureAuthenticated cfgLegacy 0 sExpired envNice).2.1 ≠ [] ∨
      ((ensureAuthenticated cfgLegacy 0 sExpired envNice).2.2).isSome =
        true) :=
  ⟨claim_C2_renewal_margin.2.2.2.1 cfgLegacy envNice 0 sValid (by decide),
    claim_C2_renewal_margin.2.2.2.2 cfgLegacy envNice 0 sExpired (by decide)⟩

/-! ### Claim C6 -/

/-- C6: in authorization-code mode with no usable refresh token,
`_authenticate` fails with the error telling the caller to call
`authenticate_with_browser` first, issuing no network call and not opening
a browser, and `ensure_authenticated` entered with no valid token does the
same. -/
theorem claim_C6_interactive_required (cfg : Config) (now : Int)
    (s : TokenState) (env : NetEnv)
    (hM : cfg.auth_method = "oauth2_authorization_code")
    (hRT : pyTruthy s.refresh_token = false) :
    authenticate cfg now s env = (s, [], some ⟨browserAuthRequiredMsg⟩) ∧
    (needsAuth now s = true →
      ensureAuthenticated cfg now s env =
        (s, [], some ⟨browserAuthRequiredMsg⟩)) := by
  have hA : authenticate cfg now s env =
      (s, [], some ⟨browserAuthRequiredMsg⟩) := by
    unfold authenticate
    simp [hM, hRT]
  refine ⟨hA, fun hNeed => ?_⟩
  unfold ensureAuthenticated
  simp [hNeed, hRT, hA]

/-- Witness for C6 at a concrete authorization-code configuration with an
empty session. -/
theorem claim_C6_witness :
    authenticate cfgAuthCode 0 ⟨none, none, none, none⟩ envNice =
      (⟨none, none, none, none⟩, [], some ⟨browserAuthRequiredMsg⟩) ∧
    ensureAuthenticated cfgAuthCode 0 ⟨none, none, none, none⟩ envNice =
      (⟨none, none, none, none⟩, [], some ⟨browserAuthRequiredMsg⟩) :=
  ⟨(claim_C6_interactive_required cfgAuthCode 0 ⟨none, none, none, none⟩
      envNice (by decide) (by decide)).1,
    (claim_C6_interactive_required cfgAuthCode 0 ⟨none, none, none, none⟩
      envNice (by decide) (by decide)).2 (by decide)⟩

/-! ### Claim C7 -/

/-- C7: `_refresh_access_token` posts its refresh grant to exactly the
spec's priority order of endpoints — the explicitly configured token
endpoint when set; else the learned `api_access_point` with `/ewws/otoken`
appended; else the base URL truncated at `/ewws/alrest` with `/ewws/otoken`
appended. -/
theorem claim_C7_token_endpoint (cfg : Config) (now : Int) (s : TokenState)
    (resp : TokenResponse) (hRT : pyTruthy s.refresh_token = true) :
    refreshTokenUrl cfg s = specTokenEndpoint cfg s ∧
    (refreshAccessToken cfg now s resp).2.1 =
      [NetCall.tokenPost (specTokenEndpoint cfg s) "refresh_token"] := by
  have hEq : refreshTokenUrl cfg s = specTokenEndpoint cfg s := by
    unfold refreshTokenUrl specTokenEndpoint configuredEndpoint
      learnedEndpoint derivedEndpoint
    rcases hc : cfg.oauth2_token_endpoint with _ | te
    · rcases ha : s.api_access_point with _ | ap
      · simp [pyTruthy, Option.filter, hc, ha]
      · by_cases hap : ap = "" <;>
          simp [pyTruthy, Option.filter, hc, ha, hap]
    · by_cases hte : te = ""
      · rcases ha : s.api_access_point with _ | ap
        · simp [pyTruthy, Option.filter, hc, ha, hte]
        · by_cases hap : ap = "" <;>
            simp [pyTruthy, Option.filter, hc, ha, hte, hap]
      · simp [pyTruthy, Option.filter, hc, hte]
  exact ⟨hEq, by rw [refreshAccessToken_calls cfg now s resp hRT, hEq]⟩

/-- Witness for C7 at a configuration with no explicit endpoint and a state
with a learned access point. -/
theorem claim_C7_witness :
    refreshTokenUrl cfgLegacy sNoAccess =
      specTokenEndpoint cfgLegacy sNoAccess ∧
    (refreshAccessToken cfgLegacy 0 sNoAccess envNice.refreshResp).2.1 =
      [NetCall.tokenPost (specTokenEndpoint cfgLegacy sNoAccess)
        "refresh_token"] :=
  claim_C7_token_endpoint cfgLegacy 0 sNoAccess envNice.refreshResp
    (by decide)

/-! ### Claim C8 -/

/-- C8: in the interactive flow, a callback carrying a code but a state
value different from the generated nonce fails with the state-mismatch
error after the listener teardown, and the token-exchange step is never
invoked (the trace holds exactly the browser launch and the teardown, and
no exchange call). -/
theorem claim_C8_state_mismatch (cfg : Config) (now : Int) (s : TokenState)
    (nonce code st aap : String) (err : Option String)
    (exResp : TokenResponse) (hNe : st ≠ nonce) :
    authenticateWithBrowser cfg now s nonce
        (some ⟨some code, some st, aap, err⟩) exResp =
      (s,
        [NetCall.browserOpen (cfg.oauth2_authorization_endpoint.getD "")
            (authParams cfg nonce),
          NetCall.listenerTeardown],
        some ⟨"State parameter mismatch - possible CSRF attack"⟩) ∧
    ((authenticateWithBrowser cfg now s nonce
        (some ⟨some code, some st, aap, err⟩) exResp).2.1).filter
      isTokenExchangeCall = [] := by
  have h1 : authenticateWithBrowser cfg now s nonce
      (some ⟨some code, some st, aap, err⟩) exResp =
      (s,
        [NetCall.browserOpen (cfg.oauth2_authorization_endpoint.getD "")
            (authParams cfg nonce),
          NetCall.listenerTeardown],
        some ⟨"State parameter mismatch - possible CSRF attack"⟩) := by
    unfold authenticateWithBrowser
    simp [hNe]
  exact ⟨h1, by rw [h1]; rfl⟩

/-- Witness for C8 at concrete nonce and callback values. -/
theorem claim_C8_witness :
    authenticateWithBrowser cfgAuthCode 0 sValid "N"
        (some ⟨some "C", some "M", "", none⟩) envNice.refreshResp =
      (sValid,
        [NetCall.browserOpen
            (cfgAuthCode.oauth2_authorization_endpoint.getD "")
            (authParams cfgAuthCode "N"),
          NetCall.listenerTeardown],
        some ⟨"State parameter mismatch - possible CSRF attack"⟩) ∧
    ((authenticateWithBrowser cfgAuthCode 0 sValid "N"
        (some ⟨some "C", some "M", "", none⟩) envNice.refreshResp).2.1).filter
      isTokenExchangeCall = [] :=
  claim_C8_state_mismatch cfgAuthCode 0 sValid "N" "C" "M" "" none
    envNice.refreshResp (by decide)

/-! ### Claim C4 -/

/-- C4, as stated, is refuted by a refresh response whose `refresh_token`
member is present but empty: the call succeeds, the response contains a
refresh token, yet the stored refresh token is not replaced (Python
truthiness treats the empty string as absent). -/
theorem claim_C4_counterexample :
    (refreshAccessToken cfgLegacy 0 sExpired
        ⟨200, true, some "A2", some 900, some ""⟩).2.2 = none ∧
    (TokenResponse.refresh_token
        ⟨200, true, some "A2", some 900, some ""⟩).isSome = true ∧
    (refreshAccessToken cfgLegacy 0 sExpired
        ⟨200, true, some "A2", some 900, some ""⟩).1.refresh_token =
      some "R1" := by
  refine ⟨by decide, by decide, by decide⟩

/-- C4 (amended): on every successful `_refresh_access_token` call, the
stored access token and expiry are replaced from the response; the stored
refresh token is replaced if and only if the response carries a non-empty
refresh token, and otherwise retained; the learned access point is
untouched. -/
theorem claim_C4_refresh_replacement (cfg : Config) (now : Int)
    (s : TokenState) (resp : TokenResponse)
    (hRT : pyTruthy s.refresh_token = true)
    (hSt : resp.status = 200) (hCt : resp.contentTypeJson = true)
    (hAt : pyTruthy resp.access_token = true) :
    (refreshAccessToken cfg now s resp).2.2 = none ∧
    (refreshAccessToken cfg now s resp).1.access_token =
      resp.access_token ∧
    (refreshAccessToken cfg now s resp).1.token_expires_at =
      some (now + resp.expires_in.getD 900) ∧
    (pyTruthy resp.refresh_token = true →
      (refreshAccessToken cfg now s resp).1.refresh_token =
        resp.refresh_token) ∧
    (pyTruthy resp.refresh_token = false →
      (refreshAccessToken cfg now s resp).1.refresh_token =
        s.refresh_token) ∧
    (refreshAccessToken cfg now s resp).1.api_access_point =
      s.api_access_point := by
  have hEq : refreshAccessToken cfg now s resp =
      ({ s with
          access_token := resp.access_token,
          token_expires_at := some (now + resp.expires_in.getD 900),
          refresh_token :=
            if pyTruthy resp.refresh_token then resp.refresh_token
            else s.refresh_token },
        [NetCall.tokenPost (refreshTokenUrl cfg s) "refresh_token"],
        none) := by
    unfold refreshAccessToken
    simp [hRT, hSt, hCt, hAt]
  rw [hEq]
  exact ⟨rfl, rfl, rfl, fun h => by simp [h], fun h => by simp [h], rfl⟩

/-- Witness for C4 (amended): a concrete successful refresh whose response
carries no refresh token retains the old one. -/
theorem claim_C4_witness :
    (refreshAccessToken cfgLegacy 0 sExpired envNice.refreshResp).2.2 =
      none ∧
    (refreshAccessToken cfgLegacy 0 sExpired
        envNice.refreshResp).1.refresh_token = sExpired.refresh_token :=
  ⟨(claim_C4_refresh_replacement cfgLegacy 0 sExpired envNice.refreshResp
      (by decide) (by decide) (by decide) (by decide)).1,
    (claim_C4_refresh_replacement cfgLegacy 0 sExpired envNice.refreshResp
      (by decide) (by decide) (by decide) (by decide)).2.2.2.2.1
      (by decide)⟩

/-! ### Claim C9 -/

/-- C9, as stated, is refuted by a prior state holding a refresh token but
no access token: `logout()` then takes its no-op branch and the refresh
token (and expiry, and access point) survive. -/
theorem claim_C9_counterexample :
    (logout cfgLegacy 0 sNoAccess envNice respOk200 respOk200).1 =
      sNoAccess ∧
    sNoAccess.refresh_token = some "R1" := by
  exact ⟨by decide, by decide⟩

/-- C9 (amended): when `logout()` is called while a non-empty access token
is held, the access token, refresh token, expiry and learned access point
are all cleared, whether or not the logout network call succeeded;
otherwise `logout()` performs no network call and changes nothing. -/
theorem claim_C9_logout_clears (cfg : Config) (now : Int) (s : TokenState)
    (env : NetEnv) (r1 r2 : ApiResponse) :
    (pyTruthy s.access_token = true →
      (logout cfg now s env r1 r2).1 = ⟨none, none, none, none⟩) ∧
    (pyTruthy s.access_token = false →
      logout cfg now s env r1 r2 = (s, [])) := by
  constructor
  · intro h
    unfold logout
    rcases hM : makeRequest cfg now s env id "POST" "/logout" r1 r2 with
      ⟨s', calls, r⟩
    simp [h, hM]
  · intro h
    unfold logout
    simp [h]

/-- Witness for C9 (amended): a concrete logout from an authenticated
state leaves every session field cleared. -/
theorem claim_C9_witness :
    (logout cfgLegacy 0 sValid envNice respOk200 respOk200).1 =
      ⟨none, none, none, none⟩ :=
  (claim_C9_logout_clears cfgLegacy 0 sValid envNice respOk200
    respOk200).1 (by decide)

/-! ### Claim C3 -/

/-- C3: when the refresh attempt made inside `ensure_authenticated` or
inside the 401 handler of `_make_request` fails with an auth error, the
fallback `_authenticate` runs on a state whose refresh token has been set
to absent, and the traces hold no second refresh-grant call. -/
theorem claim_C3_refresh_failure_clears (cfg : Config) (now : Int)
    (s : TokenState) (env : NetEnv)
    (hNeed : needsAuth now s = true)
    (hRT : pyTruthy s.refresh_token = true)
    (hFail : ((refreshAccessToken cfg now s env.refreshResp).2.2).isSome =
      true) :
    (ensureAuthenticated cfg now s env =
      ((authenticate cfg now { s with refresh_token := none } env).1,
        (refreshAccessToken cfg now s env.refreshResp).2.1 ++
          (authenticate cfg now { s with refresh_token := none } env).2.1,
        (authenticate cfg now { s with refresh_token := none } env).2.2)) ∧
    (handle401 cfg now s s.access_token env =
      ((authenticate cfg now { s with refresh_token := none } env).1,
        (refreshAccessToken cfg now s env.refreshResp).2.1 ++
          (authenticate cfg now { s with refresh_token := none } env).2.1,
        (authenticate cfg now { s with refresh_token := none } env).2.2)) ∧
    (((ensureAuthenticated cfg now s env).2.1).filter
      isRefreshGrant).length ≤ 1 ∧
    (((handle401 cfg now s s.access_token env).2.1).filter
      isRefreshGrant).length ≤ 1 := by
  rcases hE : refreshAccessToken cfg now s env.refreshResp with
    ⟨s', calls, errOpt⟩
  obtain ⟨er, her⟩ : ∃ er, errOpt = some er := by
    rw [hE] at hFail
    cases errOpt
    · simp at hFail
    · exact ⟨_, rfl⟩
  subst her
  have hs' : s' = s := by
    rcases refreshAccessToken_cases cfg now s env.refreshResp with h | h
    · rw [hE] at h; exact h
    · rw [hE] at h; simp at h
  rw [hs'] at hE
  have hCalls : calls =
      [NetCall.tokenPost (refreshTokenUrl cfg s) "refresh_token"] := by
    have := refreshAccessToken_calls cfg now s env.refreshResp hRT
    rw [hE] at this
    exact this
  have hRT0 : pyTruthy (TokenState.refresh_token
      { s with refresh_token := none }) = false := rfl
  have hAuthFilter := authenticate_no_refreshGrant cfg now
    { s with refresh_token := none } env hRT0
  have hEn : ensureAuthenticated cfg now s env =
      ((authenticate cfg now { s with refresh_token := none } env).1,
        calls ++
          (authenticate cfg now { s with refresh_token := none } env).2.1,
        (authenticate cfg now { s with refresh_token := none } env).2.2) := by
    unfold ensureAuthenticated
    rw [hE]
    simp [hNeed, hRT]
  have hHa : handle401 cfg now s s.access_token env =
      ((authenticate cfg now { s with refresh_token := none } env).1,
        calls ++
          (authenticate cfg now { s with refresh_token := none } env).2.1,
        (authenticate cfg now { s with refresh_token := none } env).2.2) := by
    unfold handle401
    rw [hE]
    simp [hRT]
  refine ⟨?_, ?_, ?_, ?_⟩
  · rw [hEn]
  · rw [hHa]
  · simp [hEn, List.filter_append, hAuthFilter, hCalls, isRefreshGrant]
  · simp [hHa, List.filter_append, hAuthFilter, hCalls, isRefreshGrant]

/-- Witness for C3: a concrete expired session whose refresh is rejected
falls back to a legacy login on a state without the refresh token. -/
theorem claim_C3_witness :
    ensureAuthenticated cfgLegacy 0 sExpired envRefreshRejected =
      ((authenticate cfgLegacy 0 { sExpired with refresh_token := none }
          envRefreshRejected).1,
        (refreshAccessToken cfgLegacy 0 sExpired
            envRefreshRejected.refreshResp).2.1 ++
          (authenticate cfgLegacy 0 { sExpired with refresh_token := none }
            envRefreshRejected).2.1,
        (authenticate cfgLegacy 0 { sExpired with refresh_token := none }
          envRefreshRejected).2.2) :=
  (claim_C3_refresh_failure_clears cfgLegacy 0 sExpired envRefreshRejected
    (by decide) (by decide) (by decide)).1

/-! ### Claim C10 -/

/-- C10: a `_make_request` entered with an access token holding more than
60 seconds of validity, whose response is not a 401, leaves the whole
session state — access token, refresh token, expiry and access point —
unchanged. -/
theorem claim_C10_non401_frame (cfg : Config) (now : Int) (s : TokenState)
    (env : NetEnv) (interfere : TokenState → TokenState)
    (method endpoint : String) (resp1 resp2 : ApiResponse)
    (tok : String) (e : Int)
    (hA : s.access_token = some tok) (hE : s.token_expires_at = some e)
    (hT : now < e - 60) (h401 : resp1.status ≠ 401) :
    (makeRequest cfg now s env interfere method endpoint resp1
      resp2).1 = s := by
  have hn : needsAuth now s = false := by
    simp only [needsAuth, hA, hE]
    simp only [decide_eq_false_iff_not]
    omega
  unfold makeRequest
  rw [ensureAuthenticated_noop cfg now s env hn]
  cases hH : getAuthHeaders s with
  | error err => simp [hH]
  | ok bearer =>
    simp only [hH, h401, if_false]
    split
    · split <;> rfl
    · rfl

/-- Witness for C10: a concrete 500 response leaves a valid session
untouched. -/
theorem claim_C10_witness :
    (makeRequest cfgLegacy 0 sValid envNice id "GET" "contract/1"
      respErr500 respOk200).1 = sValid :=
  claim_C10_non401_frame cfgLegacy 0 sValid envNice id "GET" "contract/1"
    respErr500 respOk200 "A1" 900 (by decide) (by decide) (by decide)
    (by decide)

/-! ### Claim C1 -/

/-- C1: when `_make_request` receives a 401 but the stored access token has
meanwhile been changed by a concurrent coroutine (so it differs from the
snapshot taken before the request), the 401 handler makes zero refresh or
authenticate network calls — the trace holds exactly the original request
and the single retry — and the session state, refresh token included, is
exactly what the concurrent update left. -/
theorem claim_C1_concurrent_refresh_skipped (cfg : Config) (now : Int)
    (s : TokenState) (env : NetEnv) (interfere : TokenState → TokenState)
    (method endpoint : String) (resp1 resp2 : ApiResponse)
    (tok tok2 : String) (e : Int)
    (hA : s.access_token = some tok) (hTok : tok ≠ "")
    (hE : s.token_expires_at = some e) (hT : now < e - 60)
    (h401 : resp1.status = 401)
    (hI : (interfere s).access_token = some tok2) (hTok2 : tok2 ≠ "")
    (hNe : (interfere s).access_token ≠ s.access_token) :
    (makeRequest cfg now s env interfere method endpoint resp1 resp2).1 =
      interfere s ∧
    (makeRequest cfg now s env interfere method endpoint resp1
        resp2).2.1 =
      [NetCall.apiRequest method (requestUrl cfg endpoint) tok,
        NetCall.apiRequest method (requestUrl cfg endpoint) tok2] := by
  have hn : needsAuth now s = false := by
    simp only [needsAuth, hA, hE]
    simp only [decide_eq_false_iff_not]
    omega
  have hH1 : getAuthHeaders s = .ok tok := by
    simp [getAuthHeaders, pyTruthy, hA, hTok]
  have hSt : handle401 cfg now (interfere s) s.access_token env =
      (interfere s, [], none) :=
    handle401_stale_skip cfg now (interfere s) s.access_token env hNe
  have hH2 : getAuthHeaders (interfere s) = .ok tok2 := by
    simp [getAuthHeaders, pyTruthy, hI, hTok2]
  unfold makeRequest
  rw [ensureAuthenticated_noop cfg now s env hn]
  simp only [hH1, h401, if_true, hSt, hH2]
  constructor
  · split
    · split <;> rfl
    · rfl
  · split
    · split <;> rfl
    · rfl

/-- Witness for C1: a concrete 401 whose token was concurrently replaced
by "B9" retries once with the new token and changes nothing. -/
theorem claim_C1_witness :
    (makeRequest cfgLegacy 0 sValid envNice
        (fun st => { st with access_token := some "B9" }) "GET"
        "contract/1" resp401 respOk200).1 =
      { sValid with access_token := some "B9" } ∧
    (makeRequest cfgLegacy 0 sValid envNice
        (fun st => { st with access_token := some "B9" }) "GET"
        "contract/1" resp401 respOk200).2.1 =
      [NetCall.apiRequest "GET" (requestUrl cfgLegacy "contract/1") "A1",
        NetCall.apiRequest "GET" (requestUrl cfgLegacy "contract/1")
          "B9"] :=
  claim_C1_concurrent_refresh_skipped cfgLegacy 0 sValid envNice
    (fun st => { st with access_token := some "B9" }) "GET" "contract/1"
    resp401 respOk200 "A1" "B9" 900 (by decide) (by decide) (by decide)
    (by decide) (by decide) (by decide) (by decide) (by decide)

/-! ### Lemmas: authentication traces carry no resource API calls -/

theorem refreshAccessToken_no_api (cfg : Config) (now : Int)
    (s : TokenState) (resp : TokenResponse) :
    ((refreshAccessToken cfg now s resp).2.1).filter isApiCall = [] := by
  unfold refreshAccessToken
  split
  · rfl
  · split
    · rfl
    · split
      · rfl
      · split <;> rfl

theorem authenticate_no_api (cfg : Config) (now : Int) (s : TokenState)
    (env : NetEnv) :
    ((authenticate cfg now s env).2.1).filter isApiCall = [] := by
  unfold authenticate
  split
  · unfold authenticateClientCredentials
    split
    · rfl
    · split
      · rfl
      · split <;> rfl
  · split
    · split
      · next hT =>
        split
        · next s' calls heq =>
          have := refreshAccessToken_no_api cfg now s env.refreshResp
          rw [heq] at this
          exact this
        · next s' calls er heq =>
          have := refreshAccessToken_no_api cfg now s env.refreshResp
          rw [heq] at this
          exact this
      · rfl
    · unfold authenticateLegacy
      split
      · rfl
      · split <;> rfl

theorem handle401_no_api (cfg : Config) (now : Int) (s : TokenState)
    (snapshot : Option String) (env : NetEnv) :
    ((handle401 cfg now s snapshot env).2.1).filter isApiCall = [] := by
  unfold handle401
  split
  · rfl
  · split
    · split
      · next s' calls heq =>
        have := refreshAccessToken_no_api cfg now s env.refreshResp
        rw [heq] at this
        exact this
      · next s' calls er heq =>
        have h1 := refreshAccessToken_no_api cfg now s env.refreshResp
        rw [heq] at h1
        have h2 := authenticate_no_api cfg now
          { s' with refresh_token := none } env
        simp only [List.filter_append, h1, h2]
        rfl
    · exact authenticate_no_api cfg now s env

/-! ### Claim C5 -/

/-- C5: in `_make_request`, after the single 401-triggered retry — or
immediately when the first response is not a 401 — any status outside
{200, 201, 202, 204} raises an `AgiloftAPIError` carrying that status and
the raw body, with exactly the one retry request ever issued (so a second
401 is not retried again); a 204 yields the empty result and the other
success statuses yield the parsed body. -/
theorem claim_C5_status_handling (cfg : Config) (now : Int) (s : TokenState)
    (env : NetEnv) (method endpoint : String) (resp1 resp2 : ApiResponse)
    (tok : String) (e : Int)
    (hA : s.access_token = some tok) (hTok : tok ≠ "")
    (hE : s.token_expires_at = some e) (hT : now < e - 60)
    (hHnone : (handle401 cfg now s s.access_token env).2.2 = none)
    (hHtok : pyTruthy
      (handle401 cfg now s s.access_token env).1.access_token = true) :
    (resp1.status = 401 → resp2.status ∉ successStatuses →
      (makeRequest cfg now s env id method endpoint resp1 resp2).2.2 =
        .error (.api
          ⟨"API request failed after re-auth: " ++ toString resp2.status ++
              " - " ++ resp2.text,
            some resp2.status, some resp2.text⟩) ∧
      (((makeRequest cfg now s env id method endpoint resp1
          resp2).2.1).filter isApiCall).length = 2) ∧
    (resp1.status = 401 → resp2.status = 204 →
      (makeRequest cfg now s env id method endpoint resp1 resp2).2.2 =
        .ok .empty) ∧
    (resp1.status = 401 → resp2.status ∈ successStatuses →
      resp2.status ≠ 204 →
      (makeRequest cfg now s env id method endpoint resp1 resp2).2.2 =
        .ok (.parsed resp2.text)) ∧
    (resp1.status ≠ 401 → resp1.status ∉ successStatuses →
      (makeRequest cfg now s env id method endpoint resp1 resp2).2.2 =
        .error (.api
          ⟨"API request failed: " ++ toString resp1.status ++ " - " ++
              resp1.text,
            some resp1.status, some resp1.text⟩) ∧
      (((makeRequest cfg now s env id method endpoint resp1
          resp2).2.1).filter isApiCall).length = 1) ∧
    (resp1.status ≠ 401 → resp1.status = 204 →
      (makeRequest cfg now s env id method endpoint resp1 resp2).2.2 =
        .ok .empty) ∧
    (resp1.status ≠ 401 → resp1.status ∈ successStatuses →
      resp1.status ≠ 204 →
      (makeRequest cfg now s env id method endpoint resp1 resp2).2.2 =
        .ok (.parsed resp1.text)) := by
  have hn : needsAuth now s = false := by
    simp only [needsAuth, hA, hE]
    simp only [decide_eq_false_iff_not]
    omega
  have hH1 : getAuthHeaders s = .ok tok := by
    simp [getAuthHeaders, pyTruthy, hA, hTok]
  rcases hHeq : handle401 cfg now s s.access_token env with ⟨s3, c3, e3⟩
  have he3 : e3 = none := by rw [hHeq] at hHnone; exact hHnone
  subst he3
  have hT3 : pyTruthy s3.access_token = true := by
    rw [hHeq] at hHtok; exact hHtok
  have hH3 : getAuthHeaders s3 = .ok (s3.access_token.getD "") := by
    simp [getAuthHeaders, hT3]
  have hC3 : c3.filter isApiCall = [] := by
    have := handle401_no_api cfg now s s.access_token env
    rw [hHeq] at this
    exact this
  unfold makeRequest
  rw [ensureAuthenticated_noop cfg now s env hn]
  simp only [hH1, id_eq, hHeq, hH3]
  refine ⟨fun h1 h2 => ⟨?_, ?_⟩, fun h1 h2 => ?_, fun h1 h2 h3 => ?_,
    fun h1 h2 => ⟨?_, ?_⟩, fun h1 h2 => ?_, fun h1 h2 h3 => ?_⟩
  · simp [h1, h2]
  · simp [h1, h2, List.filter_append, hC3, isApiCall]
  · simp [h1, h2, successStatuses]
  · simp [h1, h2, h3]
  · simp [h1, h2]
  · simp [h1, h2, List.filter_append, hC3, isApiCall]
  · simp [h1, h2, successStatuses]
  · simp [h1, h2, h3]

/-- Witness for C5: a concrete request answered 401 twice ends in an
`AgiloftAPIError` carrying the second 401 and its body, with exactly two
requests issued. -/
theorem claim_C5_witness :
    (makeRequest cfgLegacy 0 sValid envNice id "GET" "contract/1" resp401
        resp401).2.2 =
      .error (.api
        ⟨"API request failed after re-auth: " ++ toString resp401.status ++
            " - " ++ resp401.text,
          some resp401.status, some resp401.text⟩) ∧
    (((makeRequest cfgLegacy 0 sValid envNice id "GET" "contract/1"
        resp401 resp401).2.1).filter isApiCall).length = 2 :=
  (claim_C5_status_handling cfgLegacy 0 sValid envNice "GET" "contract/1"
    resp401 resp401 "A1" 900 (by decide) (by decide) (by decide)
    (by decide) (by decide) (by decide)).1 (by decide) (by decide)

end Agiloft
